import Mathlib

/-!
Verification of the discollama support-bot core: the chat-transcript store
and its memory adapter (`src/utils/rag.py`), the RAG pipeline façade's
per-conversation engine cache (`src/utils/rag.py`), and the support-ticket
cog (`src/cogs/support.py`).  Python classes are shallowly embedded as Lean
structures; database tables are lists of row structures in insertion
(rowid) order; the SQL `ORDER BY timestamp` is modelled as a stable sort by
timestamp; external calls (Discord API, the chat engine's LLM call) are
modelled by their outcomes.
-/

namespace Discollama

/-- Row of the `chat_messages` table (`ChatMessage` in `src/utils/rag.py`):
id (surrogate key), channel_id, role, content, timestamp
(`default=datetime.utcnow`, modelled as a `Nat` supplied by the store's
clock at insertion time). -/
structure ChatMessageRow where
  id : Nat
  channel_id : String
  role : String
  content : String
  timestamp : Nat
deriving Repr, DecidableEq

/-- The `chat_messages` table: rows in insertion (rowid) order. -/
abbrev ChatDB := List ChatMessageRow

/-- `DatabaseChatMemory.__init__` (`src/utils/rag.py` lines 36-39): stores
the conversation id and the token limit fixed at construction.  The SQL
session is the ambient `ChatDB` state threaded through the operations. -/
structure DatabaseChatMemory where
  channel_id : String
  token_limit : Nat
deriving Repr, DecidableEq

/-- `DatabaseChatMemory.add_message` (lines 41-44): constructs a row for the
adapter's channel with the given role and content, the surrogate id chosen
fresh by the store and the timestamp `ts` assigned by the store's clock
(`datetime.utcnow`), appends it and commits. -/
def add_message (mem : DatabaseChatMemory) (db : ChatDB)
    (role content : String) (ts : Nat) : ChatDB :=
  db ++ [⟨db.length, mem.channel_id, role, content, ts⟩]

/-- Predicate for `filter_by(channel_id=self.channel_id)`. -/
def channelMatches (c : String) (r : ChatMessageRow) : Bool :=
  r.channel_id == c

/-- Stable insertion of a row into a list sorted by timestamp: the row goes
before the first element with a timestamp not smaller than its own, so rows
with equal timestamps keep their original relative order. -/
def insertByTs (r : ChatMessageRow) : List ChatMessageRow → List ChatMessageRow
  | [] => [r]
  | x :: xs => if x.timestamp < r.timestamp then x :: insertByTs r xs else r :: x :: xs

/-- `order_by(ChatMessage.timestamp)` on the rows produced by the query, in
rowid order, modelled as a stable insertion sort by timestamp. -/
def orderByTimestamp : List ChatMessageRow → List ChatMessageRow
  | [] => []
  | x :: xs => insertByTs x (orderByTimestamp xs)

/-- The row set produced by
`session.query(ChatMessage).filter_by(channel_id=...).order_by(ChatMessage.timestamp).all()`
(line 47). -/
def query_rows (mem : DatabaseChatMemory) (db : ChatDB) : List ChatMessageRow :=
  orderByTimestamp (db.filter (channelMatches mem.channel_id))

/-- `DatabaseChatMemory.get_messages` (lines 46-48): the ordered rows
projected to `{"role": ..., "content": ...}` pairs. -/
def get_messages (mem : DatabaseChatMemory) (db : ChatDB) : List (String × String) :=
  (query_rows mem db).map (fun r => (r.role, r.content))

/-- `DatabaseChatMemory.clear` (lines 50-52): deletes every row of the
adapter's channel and commits. -/
def clear (mem : DatabaseChatMemory) (db : ChatDB) : ChatDB :=
  db.filter (fun r => !(channelMatches mem.channel_id r))

/-- A sequence of `add_message` calls through one adapter, each with the
role, content and store-assigned timestamp of that call. -/
def run_adds (mem : DatabaseChatMemory) (db : ChatDB) :
    List (String × String × Nat) → ChatDB
  | [] => db
  | (role, content, ts) :: rest => run_adds mem (add_message mem db role content ts) rest

/-- The rows a sequence of `add_message` calls appends, given the channel
and the table length (next surrogate id) at the start. -/
def rows_of (c : String) (n : Nat) : List (String × String × Nat) → List ChatMessageRow
  | [] => []
  | (role, content, ts) :: rest => ⟨n, c, role, content, ts⟩ :: rows_of c (n + 1) rest

theorem run_adds_eq_append (mem : DatabaseChatMemory) :
    ∀ (calls : List (String × String × Nat)) (db : ChatDB),
      run_adds mem db calls = db ++ rows_of mem.channel_id db.length calls := by
  intro calls
  induction calls with
  | nil => intro db; simp [run_adds, rows_of]
  | cons call rest ih =>
    intro db
    obtain ⟨role, content, ts⟩ := call
    rw [run_adds, rows_of, add_message, ih]
    simp

theorem rows_of_pairs (c : String) :
    ∀ (calls : List (String × String × Nat)) (n : Nat),
      (rows_of c n calls).map (fun r => (r.role, r.content)) =
        calls.map (fun x => (x.1, x.2.1)) := by
  intro calls
  induction calls with
  | nil => intro n; rfl
  | cons call rest ih =>
    intro n
    obtain ⟨role, content, ts⟩ := call
    simp [rows_of, ih]

theorem rows_of_timestamps (c : String) :
    ∀ (calls : List (String × String × Nat)) (n : Nat),
      (rows_of c n calls).map (fun r => r.timestamp) = calls.map (fun x => x.2.2) := by
  intro calls
  induction calls with
  | nil => intro n; rfl
  | cons call rest ih =>
    intro n
    obtain ⟨role, content, ts⟩ := call
    simp [rows_of, ih]

theorem rows_of_channel (c : String) :
    ∀ (calls : List (String × String × Nat)) (n : Nat),
      ∀ r ∈ rows_of c n calls, r.channel_id = c := by
  intro calls
  induction calls with
  | nil => intro n r hr; cases hr
  | cons call rest ih =>
    intro n r hr
    obtain ⟨role, content, ts⟩ := call
    rcases List.mem_cons.mp hr with hr | hr
    · rw [hr]
    · exact ih (n + 1) r hr

/-- A list whose timestamps form a non-decreasing chain is a fixpoint of
`insertByTs` at its head position. -/
theorem insertByTs_of_le (r : ChatMessageRow) (l : List ChatMessageRow)
    (h : ∀ x ∈ l.head?, r.timestamp ≤ x.timestamp) : insertByTs r l = r :: l := by
  cases l with
  | nil => rfl
  | cons x xs =>
    have hx : r.timestamp ≤ x.timestamp := h x rfl
    simp [insertByTs, Nat.not_lt.mpr hx]

theorem orderByTimestamp_of_sorted :
    ∀ (l : List ChatMessageRow),
      List.Chain' (fun a b => a.timestamp ≤ b.timestamp) l → orderByTimestamp l = l := by
  intro l
  induction l with
  | nil => intro _; rfl
  | cons x xs ih =>
    intro h
    rw [orderByTimestamp, ih h.tail]
    apply insertByTs_of_le
    intro y hy
    cases xs with
    | nil => cases hy
    | cons z zs =>
      cases hy
      exact (List.chain'_cons.mp h).1

theorem insertByTs_length (r : ChatMessageRow) :
    ∀ l : List ChatMessageRow, (insertByTs r l).length = l.length + 1 := by
  intro l
  induction l with
  | nil => rfl
  | cons x xs ih =>
    by_cases hx : x.timestamp < r.timestamp
    · simp [insertByTs, hx, ih]
    · simp [insertByTs, hx]

theorem orderByTimestamp_length :
    ∀ l : List ChatMessageRow, (orderByTimestamp l).length = l.length := by
  intro l
  induction l with
  | nil => rfl
  | cons x xs ih => rw [orderByTimestamp, insertByTs_length, ih, List.length_cons]

theorem insertByTs_channel (c : String) (r : ChatMessageRow) (hr : r.channel_id = c) :
    ∀ l : List ChatMessageRow, (∀ x ∈ l, x.channel_id = c) →
      ∀ x ∈ insertByTs r l, x.channel_id = c := by
  intro l
  induction l with
  | nil =>
    intro _ x hx
    rcases List.mem_cons.mp hx with hx | hx
    · rw [hx]; exact hr
    · cases hx
  | cons y ys ih =>
    intro hl x hx
    by_cases hy : y.timestamp < r.timestamp
    · rw [insertByTs, if_pos hy] at hx
      rcases List.mem_cons.mp hx with hx | hx
      · rw [hx]; exact hl y (by simp)
      · exact ih (fun z hz => hl z (by simp [hz])) x hx
    · rw [insertByTs, if_neg hy] at hx
      rcases List.mem_cons.mp hx with hx | hx
      · rw [hx]; exact hr
      · exact hl x hx

theorem orderByTimestamp_channel (c : String) :
    ∀ l : List ChatMessageRow, (∀ x ∈ l, x.channel_id = c) →
      ∀ x ∈ orderByTimestamp l, x.channel_id = c := by
  intro l
  induction l with
  | nil => intro _ x hx; cases hx
  | cons y ys ih =>
    intro hl
    exact insertByTs_channel c y (hl y (by simp))
      (orderByTimestamp ys) (ih (fun z hz => hl z (by simp [hz])))

/-- C5 helper: `clear` removes exactly the adapter's rows. -/
theorem clear_filter (mem : DatabaseChatMemory) (db : ChatDB) :
    (clear mem db).filter (channelMatches mem.channel_id) = [] := by
  rw [clear, List.filter_filter]
  apply List.filter_eq_nil_iff.mpr
  intro a _
  by_cases h : channelMatches mem.channel_id a
  · simp [h]
  · simp [h]

theorem get_messages_after_clear (mem : DatabaseChatMemory) (db : ChatDB) :
    get_messages mem (clear mem db) = [] := by
  rw [get_messages, query_rows, clear_filter]
  rfl

theorem clear_clear (mem : DatabaseChatMemory) (db : ChatDB) :
    clear mem (clear mem db) = clear mem db := by
  rw [clear, clear, List.filter_filter]
  apply List.filter_congr
  intro a _
  by_cases h : channelMatches mem.channel_id a
  · simp [h]
  · simp [h]

/-- C5: for every conversation and any prior contents, `clear()` leaves no
rows for the conversation — a subsequent `get_messages()` returns the empty
sequence — and a second `clear()` with no intervening `add_message` leaves
the store unchanged. -/
theorem clear_then_get_empty_and_idempotent
    (mem : DatabaseChatMemory) (db : ChatDB) :
    get_messages mem (clear mem db) = [] ∧ clear mem (clear mem db) = clear mem db :=
  ⟨get_messages_after_clear mem db, clear_clear mem db⟩

/-- C1: through one conversation's adapter, after any sequence of
`add_message` calls whose store-assigned timestamps are non-decreasing (the
store clock), `get_messages()` returns the {role, content} pairs in
insertion order (which is non-decreasing timestamp order), and returns the
empty sequence when no messages exist for the conversation. -/
theorem get_messages_insertion_order (mem : DatabaseChatMemory) (db0 : ChatDB)
    (h0 : ∀ r ∈ db0, r.channel_id ≠ mem.channel_id)
    (calls : List (String × String × Nat))
    (hmono : List.Chain' (· ≤ ·) (calls.map (fun x => x.2.2))) :
    get_messages mem db0 = [] ∧
    get_messages mem (run_adds mem db0 calls) = calls.map (fun x => (x.1, x.2.1)) := by
  have hdb0 : db0.filter (channelMatches mem.channel_id) = [] := by
    apply List.filter_eq_nil_iff.mpr
    intro a ha
    simp [channelMatches]
    exact h0 a ha
  constructor
  · rw [get_messages, query_rows, hdb0]
    rfl
  · rw [run_adds_eq_append, get_messages, query_rows, List.filter_append, hdb0,
      List.nil_append]
    have hrows : (rows_of mem.channel_id db0.length calls).filter
        (channelMatches mem.channel_id) = rows_of mem.channel_id db0.length calls := by
      apply List.filter_eq_self.mpr
      intro a ha
      simp [channelMatches, rows_of_channel mem.channel_id calls db0.length a ha]
    rw [hrows, orderByTimestamp_of_sorted, rows_of_pairs]
    apply (List.chain'_map (fun r : ChatMessageRow => r.timestamp)).mp
    rw [rows_of_timestamps]
    exact hmono

/-- C1 witness: a concrete two-call run on an initially unrelated store. -/
theorem get_messages_insertion_order_witness :
    get_messages ⟨"t1", 16384⟩ [⟨0, "other", "user", "x", 0⟩] = [] ∧
    get_messages ⟨"t1", 16384⟩
        (run_adds ⟨"t1", 16384⟩ [⟨0, "other", "user", "x", 0⟩]
          [("user", "hello", 1), ("assistant", "hi there", 2)]) =
      [("user", "hello"), ("assistant", "hi there")] :=
  get_messages_insertion_order ⟨"t1", 16384⟩ [⟨0, "other", "user", "x", 0⟩]
    (by intro r hr; simp at hr; rw [hr]; decide)
    [("user", "hello", 1), ("assistant", "hi there", 2)] (by simp)

/-- C8: no adapter operation reads the token limit accepted at
construction — each of `add_message`, `get_messages` and `clear` gives the
same result under any two token limits — `add_message` stores the full
content unchanged, and `get_messages` returns every stored message of the
conversation regardless of total size. -/
theorem token_limit_not_enforced (c : String) (tl tl' : Nat) (db : ChatDB)
    (role content : String) (ts : Nat) :
    add_message ⟨c, tl⟩ db role content ts = add_message ⟨c, tl'⟩ db role content ts ∧
    get_messages ⟨c, tl⟩ db = get_messages ⟨c, tl'⟩ db ∧
    clear ⟨c, tl⟩ db = clear ⟨c, tl'⟩ db ∧
    (add_message ⟨c, tl⟩ db role content ts).map (fun r => r.content) =
      db.map (fun r => r.content) ++ [content] ∧
    (get_messages ⟨c, tl⟩ db).length = (db.filter (channelMatches c)).length := by
  refine ⟨rfl, rfl, rfl, ?_, ?_⟩
  · simp [add_message]
  · rw [get_messages, List.length_map, query_rows, orderByTimestamp_length]

/-- C9: the adapter's operations touch only the conversation fixed at
construction: `add_message` and `clear` leave every row of a different
channel unchanged, and the rows `get_messages` reads all carry the
adapter's channel id. -/
theorem adapter_scoped_to_channel (c : String) (tl : Nat) (db : ChatDB)
    (role content : String) (ts : Nat) :
    (add_message ⟨c, tl⟩ db role content ts).filter (fun r => !(channelMatches c r)) =
      db.filter (fun r => !(channelMatches c r)) ∧
    (clear ⟨c, tl⟩ db).filter (fun r => !(channelMatches c r)) =
      db.filter (fun r => !(channelMatches c r)) ∧
    (query_rows ⟨c, tl⟩ db).all (channelMatches c) = true := by
  refine ⟨?_, ?_, ?_⟩
  · rw [add_message, List.filter_append]
    simp [channelMatches]
  · rw [clear, List.filter_filter]
    apply List.filter_congr
    intro a _
    rw [Bool.and_self]
  · apply List.all_eq_true.mpr
    intro r hr
    have hc : r.channel_id = c := by
      apply orderByTimestamp_channel c (db.filter (channelMatches c)) ?_ r hr
      intro x hx
      have := List.of_mem_filter hx
      simpa [channelMatches] using this
    simp [channelMatches, hc]

/-- The mutable state of `RAGChatPipeline` relevant to conversations
(`src/utils/rag.py` lines 54-184): the token limit, the keys of the
`chat_engines` dict (the engine objects themselves are external), and the
shared `chat_messages` table behind the per-engine memory adapters. -/
structure PipelineState where
  token_limit : Nat
  chat_engines : List String
  db : ChatDB
deriving Repr, DecidableEq

/-- `_get_or_create_chat_engine` (lines 82-85, 152): reuses a cached engine
or constructs one (registering its key).  The boolean records whether a
fresh engine was constructed on this call. -/
def get_or_create_chat_engine (st : PipelineState) (c : String) : PipelineState × Bool :=
  if c ∈ st.chat_engines then (st, false)
  else ({ st with chat_engines := c :: st.chat_engines }, true)

/-- `reset_chat` (lines 178-181): only when the channel has a cached
engine, clears that engine's memory adapter (whose channel id and token
limit were fixed at engine construction) and deletes the cache entry. -/
def reset_chat (st : PipelineState) (c : String) : PipelineState :=
  if c ∈ st.chat_engines then
    { st with chat_engines := st.chat_engines.erase c,
              db := clear ⟨c, st.token_limit⟩ st.db }
  else st

theorem not_mem_erase_self (c : String) :
    ∀ l : List String, l.Nodup → c ∉ l.erase c := by
  intro l
  induction l with
  | nil => intro _ h; cases h
  | cons x xs ih =>
    intro hnd
    by_cases hx : x = c
    · rw [hx, List.erase_cons_head]
      rw [hx] at hnd
      exact (List.nodup_cons.mp hnd).1
    · rw [List.erase_cons_tail (by simp [hx])]
      intro hmem
      rcases List.mem_cons.mp hmem with hmem | hmem
      · exact hx hmem.symm
      · exact ih (List.nodup_cons.mp hnd).2 hmem

/-- C2 counterexample: a conversation whose messages are persisted but
which has no cached chat engine.  `reset_chat` leaves the state — hence the
transcript — untouched, so `get_messages` still returns the old turn. -/
theorem reset_chat_uncached_counterexample :
    reset_chat ⟨16384, [], [⟨0, "thread7", "user", "hello", 0⟩]⟩ "thread7" =
      ⟨16384, [], [⟨0, "thread7", "user", "hello", 0⟩]⟩ ∧
    get_messages ⟨"thread7", 16384⟩
        (reset_chat ⟨16384, [], [⟨0, "thread7", "user", "hello", 0⟩]⟩ "thread7").db =
      [("user", "hello")] := by
  constructor
  · rfl
  · rfl

/-- C2 amended: when the conversation has a cached chat engine,
`reset_chat` clears its transcript (subsequent `get_messages` is empty) and
evicts the engine, so the next chat call constructs a fresh one; when the
conversation has no cached engine, `reset_chat` is a no-op and in
particular leaves any persisted transcript for it unchanged. -/
theorem reset_chat_clears_cached (st : PipelineState) (c : String)
    (hnd : st.chat_engines.Nodup) :
    (c ∈ st.chat_engines →
      get_messages ⟨c, st.token_limit⟩ (reset_chat st c).db = [] ∧
      c ∉ (reset_chat st c).chat_engines ∧
      (get_or_create_chat_engine (reset_chat st c) c).2 = true) ∧
    (c ∉ st.chat_engines → reset_chat st c = st) := by
  constructor
  · intro hmem
    rw [reset_chat, if_pos hmem]
    refine ⟨?_, ?_, ?_⟩
    · exact get_messages_after_clear ⟨c, st.token_limit⟩ st.db
    · exact not_mem_erase_self c st.chat_engines hnd
    · rw [get_or_create_chat_engine,
        if_neg (not_mem_erase_self c st.chat_engines hnd)]
  · intro hmem
    rw [reset_chat, if_neg hmem]

/-- C2 amended witness: one cached engine with one persisted turn. -/
theorem reset_chat_clears_cached_witness :
    get_messages ⟨"t", 100⟩
        (reset_chat ⟨100, ["t"], [⟨0, "t", "user", "hi", 0⟩]⟩ "t").db = [] ∧
    "t" ∉ (reset_chat ⟨100, ["t"], [⟨0, "t", "user", "hi", 0⟩]⟩ "t").chat_engines ∧
    (get_or_create_chat_engine
        (reset_chat ⟨100, ["t"], [⟨0, "t", "user", "hi", 0⟩]⟩ "t") "t").2 = true ∧
    reset_chat ⟨100, ["u"], []⟩ "t" = ⟨100, ["u"], []⟩ := by
  refine ⟨?_, ?_, ?_, ?_⟩
  · exact ((reset_chat_clears_cached ⟨100, ["t"], [⟨0, "t", "user", "hi", 0⟩]⟩ "t"
      (by decide)).1 (by decide)).1
  · exact ((reset_chat_clears_cached ⟨100, ["t"], [⟨0, "t", "user", "hi", 0⟩]⟩ "t"
      (by decide)).1 (by decide)).2.1
  · exact ((reset_chat_clears_cached ⟨100, ["t"], [⟨0, "t", "user", "hi", 0⟩]⟩ "t"
      (by decide)).1 (by decide)).2.2
  · exact (reset_chat_clears_cached ⟨100, ["u"], []⟩ "t" (by decide)).2 (by decide)

/-- Row of the `support_tickets` table (`SupportTicket` in
`src/cogs/support.py` lines 15-20): id (surrogate key), thread_id (UNIQUE,
indexed), user_id, created_at (`default=datetime.utcnow`). -/
structure SupportTicket where
  id : Nat
  thread_id : String
  user_id : String
  created_at : Nat
deriving Repr, DecidableEq

/-- The `support_tickets` table in insertion order. -/
abbrev TicketDB := List SupportTicket

/-- Kinds of Python exception relevant to the handlers: SQLAlchemy
data-access errors versus anything else; both are subclasses of
`Exception`. -/
inductive PyError
  | dataAccess
  | other
deriving Repr, DecidableEq

/-- Errors the relational store raises on commit. -/
inductive DBError
  | uniqueViolation
deriving Repr, DecidableEq

/-- `session.add(new_ticket); session.commit()` under the UNIQUE constraint
on `thread_id`: a duplicate thread_id makes the commit fail and leaves the
table unchanged. -/
def insert_ticket (db : TicketDB) (tid uid : String) (ts : Nat) :
    Except DBError TicketDB :=
  if db.any (fun t => t.thread_id == tid) then .error .uniqueViolation
  else .ok (db ++ [⟨db.length, tid, uid, ts⟩])

/-- Outcome of the `interaction.channel.create_thread` call in
`Support.create_ticket` (lines 40-44): success with the new thread id, or
one of the exception classes the surrounding `try` distinguishes
(`discord.errors.Forbidden`, `discord.errors.HTTPException`, any other
`Exception`). -/
inductive ThreadCreateResult
  | created (thread_id : Nat)
  | forbidden
  | httpError
  | unexpected
deriving Repr, DecidableEq

/-- Message sent on `discord.errors.Forbidden` (line 67). -/
def permissionDeniedMsg : String :=
  "I don't have permission to create a support ticket. Please contact an administrator."

/-- Message sent on `discord.errors.HTTPException` (line 70). -/
def httpErrorMsg : String :=
  "An error occurred while creating the support ticket. Please try again later."

/-- Message sent on any other `Exception` (line 73). -/
def unexpectedErrorMsg : String :=
  "An unexpected error occurred. Please contact an administrator."

/-- Confirmation sent to the requester on success (line 56). -/
def ticketCreatedMsg (thread_id : Nat) : String :=
  "Support ticket created in <#" ++ toString thread_id ++ ">"

/-- `Support.create_ticket` (lines 38-73): create the thread, send the
welcome embed and the confirmation, insert the ticket row; each exception
class is caught and turned into its user-visible message, leaving the table
as it was.  Returns the table after the command and the message the
requester receives. -/
def create_ticket (db : TicketDB) (user_id : Nat) (ts : Nat)
    (res : ThreadCreateResult) : TicketDB × String :=
  match res with
  | .created thread_id =>
    match insert_ticket db (toString thread_id) (toString user_id) ts with
    | .ok db2 => (db2, ticketCreatedMsg thread_id)
    | .error _ => (db, unexpectedErrorMsg)
  | .forbidden => (db, permissionDeniedMsg)
  | .httpError => (db, httpErrorMsg)
  | .unexpected => (db, unexpectedErrorMsg)

/-- Ticket-table states reachable in the cog: the table starts empty
(`create_all` on a fresh store) and is mutated only by the support
command. -/
inductive TicketReachable : TicketDB → Prop
  | init : TicketReachable []
  | step (db : TicketDB) (u ts : Nat) (res : ThreadCreateResult) :
      TicketReachable db → TicketReachable (create_ticket db u ts res).1

theorem reachable_thread_ids_nodup (db : TicketDB) (h : TicketReachable db) :
    (db.map (fun t => t.thread_id)).Nodup := by
  induction h with
  | init => exact List.nodup_nil
  | step db u ts res hr ih =>
    cases res with
    | created thread_id =>
      by_cases hany : db.any (fun t => t.thread_id == toString thread_id) = true
      · rw [create_ticket, insert_ticket, if_pos hany]
        exact ih
      · rw [create_ticket, insert_ticket, if_neg hany]
        have hnotin : toString thread_id ∉ db.map (fun t => t.thread_id) := by
          intro hmem
          rcases List.mem_map.mp hmem with ⟨t, ht, htid⟩
          exact hany (List.any_eq_true.mpr ⟨t, ht, by simp [htid]⟩)
        simp only [List.map_append, List.map_cons, List.map_nil]
        rw [List.nodup_append]
        refine ⟨ih, List.nodup_singleton _, ?_⟩
        intro a ha hb
        rcases List.mem_singleton.mp hb with hb
        rw [hb] at ha
        exact hnotin ha
    | forbidden => exact ih
    | httpError => exact ih
    | unexpected => exact ih

/-- C4: in every reachable ticket-table state, thread ids are pairwise
distinct; inserting a ticket whose thread_id is already present fails with
the uniqueness violation, and the table holds exactly one ticket for that
thread. -/
theorem thread_id_unique_invariant (db : TicketDB) (h : TicketReachable db) :
    (db.map (fun t => t.thread_id)).Nodup ∧
    ∀ tid uid ts, db.any (fun t => t.thread_id == tid) = true →
      insert_ticket db tid uid ts = .error .uniqueViolation ∧
      (db.filter (fun t => t.thread_id == tid)).length = 1 := by
  have hnd := reachable_thread_ids_nodup db h
  refine ⟨hnd, ?_⟩
  intro tid uid ts hany
  refine ⟨by rw [insert_ticket, if_pos hany], ?_⟩
  have hlen : (db.filter (fun t => t.thread_id == tid)).length =
      (db.map (fun t => t.thread_id)).count tid := by
    rw [List.count_eq_countP, List.countP_map, ← List.countP_eq_length_filter]
    rfl
  rw [hlen]
  have hle : (db.map (fun t => t.thread_id)).count tid ≤ 1 :=
    List.nodup_iff_count_le_one.mp hnd tid
  have hge : 1 ≤ (db.map (fun t => t.thread_id)).count tid := by
    rcases List.any_eq_true.mp hany with ⟨t, ht, htid⟩
    have : tid ∈ db.map (fun t => t.thread_id) :=
      List.mem_map.mpr ⟨t, ht, by simpa using htid⟩
    exact List.count_pos_iff.mpr this
  exact Nat.le_antisymm hle hge

/-- C4 witness: the table reached by one successful support command rejects
a duplicate insert for that thread. -/
theorem thread_id_unique_invariant_witness :
    ((create_ticket [] 9 0 (.created 5)).1.map (fun t => t.thread_id)).Nodup ∧
    insert_ticket (create_ticket [] 9 0 (.created 5)).1 "5" "8" 1 =
      .error .uniqueViolation ∧
    ((create_ticket [] 9 0 (.created 5)).1.filter
      (fun t => t.thread_id == "5")).length = 1 := by
  have h := thread_id_unique_invariant (create_ticket [] 9 0 (.created 5)).1
    (TicketReachable.step [] 9 0 (.created 5) TicketReachable.init)
  exact ⟨h.1, (h.2 "5" "8" 1 (by decide)).1, (h.2 "5" "8" 1 (by decide)).2⟩

/-- C6: the ticket row is inserted only if thread creation succeeded — on
any failure outcome the table is unchanged — and on a permission failure
the requester receives the permission-denied message, which is not the
generic error message. -/
theorem ticket_inserted_only_on_success (db : TicketDB) (u ts : Nat)
    (res : ThreadCreateResult) (hfail : ∀ tid, res ≠ .created tid) :
    (create_ticket db u ts res).1 = db ∧
    create_ticket db u ts .forbidden = (db, permissionDeniedMsg) ∧
    permissionDeniedMsg ≠ httpErrorMsg ∧
    permissionDeniedMsg ≠ unexpectedErrorMsg := by
  cases res with
  | created tid => exact absurd rfl (hfail tid)
  | forbidden => exact ⟨rfl, rfl, by decide, by decide⟩
  | httpError => exact ⟨rfl, rfl, by decide, by decide⟩
  | unexpected => exact ⟨rfl, rfl, by decide, by decide⟩

/-- C6 witness: a forbidden thread creation on a one-row table. -/
theorem ticket_inserted_only_on_success_witness :
    (create_ticket [⟨0, "5", "9", 0⟩] 9 1 .forbidden).1 = [⟨0, "5", "9", 0⟩] ∧
    create_ticket [⟨0, "5", "9", 0⟩] 9 1 .forbidden =
      ([⟨0, "5", "9", 0⟩], permissionDeniedMsg) ∧
    permissionDeniedMsg ≠ httpErrorMsg ∧
    permissionDeniedMsg ≠ unexpectedErrorMsg :=
  ticket_inserted_only_on_success [⟨0, "5", "9", 0⟩] 9 1 .forbidden
    (fun _ h => ThreadCreateResult.noConfusion h)

/-- The fields of a Discord message event `Support.on_message` reads
(lines 75-94): whether the channel is a `discord.Thread`, the channel id,
whether the author is a bot account, the author id, and the content. -/
structure MessageEvent where
  channel_isThread : Bool
  channel_id : Nat
  author_bot : Bool
  author_id : Nat
  content : String
deriving Repr, DecidableEq

/-- Apology sent when the generation `try` block raises (line 94). -/
def apologyMsg : String :=
  "I apologize, but I encountered an error while processing your request. Please try again or contact a human administrator if the issue persists."

/-- The externally visible effects of one `on_message` run: the
`rag.chat(content, thread_id)` invocations made and the messages sent into
the channel. -/
structure HandlerOutcome where
  chat_calls : List (String × String)
  sent : List String
deriving Repr, DecidableEq

/-- The ticket query
`session.query(SupportTicket).filter_by(thread_id=thread_id).first()`
(line 83). -/
def ticket_lookup (tickets : TicketDB) (thread_id : String) : Option SupportTicket :=
  tickets.find? (fun t => t.thread_id == thread_id)

/-- `Support.on_message` (lines 75-94), parameterized by the outcomes of
its two effectful calls: the ticket query (whose data-access failure is
raised outside any `try` and so propagates) and `self.rag.chat` (any
exception from it is caught by the `except Exception` and answered with the
apology). -/
def on_message (lookup : Except PyError (Option SupportTicket))
    (chatResult : Except PyError String) (m : MessageEvent) :
    Except PyError HandlerOutcome :=
  if !m.channel_isThread || m.author_bot then .ok ⟨[], []⟩
  else
    match lookup with
    | .error e => .error e
    | .ok none => .ok ⟨[], []⟩
    | .ok (some ticket) =>
      if toString m.author_id != ticket.user_id then .ok ⟨[], []⟩
      else
        match chatResult with
        | .ok response => .ok ⟨[(m.content, toString m.channel_id)], [response]⟩
        | .error _ => .ok ⟨[(m.content, toString m.channel_id)], [apologyMsg]⟩

/-- C3: an event outside a thread, or from a bot account, or whose thread
has no matching ticket, or whose sender is not the ticket owner, produces
no pipeline chat call and no message sent into the channel. -/
theorem on_message_ignores (tickets : TicketDB)
    (chatResult : Except PyError String) (m : MessageEvent)
    (h : m.channel_isThread = false ∨ m.author_bot = true ∨
      ticket_lookup tickets (toString m.channel_id) = none ∨
      ∃ t, ticket_lookup tickets (toString m.channel_id) = some t ∧
        toString m.author_id ≠ t.user_id) :
    on_message (.ok (ticket_lookup tickets (toString m.channel_id))) chatResult m =
      .ok ⟨[], []⟩ := by
  rcases h with h | h | h | ⟨t, ht, hne⟩
  · simp [on_message, h]
  · simp [on_message, h]
  · by_cases hg : (!m.channel_isThread || m.author_bot) = true
    · simp [on_message, hg]
    · simp [on_message, hg, h]
  · by_cases hg : (!m.channel_isThread || m.author_bot) = true
    · simp [on_message, hg]
    · simp [on_message, hg, ht, hne]

/-- C3 witness: the four ignore conditions at concrete events over a
one-ticket table (owner "9" of thread "5"). -/
theorem on_message_ignores_witness :
    on_message (.ok (ticket_lookup [⟨0, "5", "9", 0⟩] (toString 5))) (.ok "r")
      ⟨false, 5, false, 9, "hi"⟩ = .ok ⟨[], []⟩ ∧
    on_message (.ok (ticket_lookup [⟨0, "5", "9", 0⟩] (toString 5))) (.ok "r")
      ⟨true, 5, true, 9, "hi"⟩ = .ok ⟨[], []⟩ ∧
    on_message (.ok (ticket_lookup [⟨0, "5", "9", 0⟩] (toString 6))) (.ok "r")
      ⟨true, 6, false, 9, "hi"⟩ = .ok ⟨[], []⟩ ∧
    on_message (.ok (ticket_lookup [⟨0, "5", "9", 0⟩] (toString 5))) (.ok "r")
      ⟨true, 5, false, 8, "hi"⟩ = .ok ⟨[], []⟩ := by
  refine ⟨?_, ?_, ?_, ?_⟩
  · exact on_message_ignores [⟨0, "5", "9", 0⟩] (.ok "r") ⟨false, 5, false, 9, "hi"⟩
      (Or.inl rfl)
  · exact on_message_ignores [⟨0, "5", "9", 0⟩] (.ok "r") ⟨true, 5, true, 9, "hi"⟩
      (Or.inr (Or.inl rfl))
  · exact on_message_ignores [⟨0, "5", "9", 0⟩] (.ok "r") ⟨true, 6, false, 9, "hi"⟩
      (Or.inr (Or.inr (Or.inl (by decide))))
  · exact on_message_ignores [⟨0, "5", "9", 0⟩] (.ok "r") ⟨true, 5, false, 8, "hi"⟩
      (Or.inr (Or.inr (Or.inr ⟨⟨0, "5", "9", 0⟩, by decide, by decide⟩)))

/-- C7 counterexample: a data-access error raised during the chat
pipeline's handling of an owner message (e.g. by `add_message` persisting a
turn) does not propagate out of `on_message`: the `except Exception` block
catches it and sends the generic apologetic message. -/
theorem on_message_data_access_caught_counterexample :
    on_message (.ok (ticket_lookup [⟨0, "5", "9", 0⟩] (toString 5)))
        (.error .dataAccess) ⟨true, 5, false, 9, "ask"⟩ =
      .ok ⟨[("ask", "5")], [apologyMsg]⟩ := by
  rfl

/-- C7 amended: a data-access error raised by the ticket query (outside the
`try` block) propagates out of `on_message` uncaught; an error — data-access
included — raised during the `rag.chat` call is caught and converted into
the generic apologetic message, after the pipeline was invoked. -/
theorem data_access_error_handling_split (m : MessageEvent) (e : PyError)
    (chatResult : Except PyError String) (t : SupportTicket)
    (hth : m.channel_isThread = true) (hbot : m.author_bot = false)
    (hown : toString m.author_id = t.user_id) :
    on_message (.error e) chatResult m = .error e ∧
    on_message (.ok (some t)) (.error e) m =
      .ok ⟨[(m.content, toString m.channel_id)], [apologyMsg]⟩ := by
  constructor
  · simp [on_message, hth, hbot]
  · simp [on_message, hth, hbot, hown]

/-- C7 amended witness: ticket query failure propagates; chat failure at an
owner message is answered with the apology. -/
theorem data_access_error_handling_split_witness :
    on_message (.error .dataAccess) (.ok "r") ⟨true, 5, false, 9, "ask"⟩ =
      .error .dataAccess ∧
    on_message (.ok (some ⟨0, "5", "9", 0⟩)) (.error .dataAccess)
        ⟨true, 5, false, 9, "ask"⟩ =
      .ok ⟨[("ask", "5")], [apologyMsg]⟩ :=
  data_access_error_handling_split ⟨true, 5, false, 9, "ask"⟩ .dataAccess
    (.ok "r") ⟨0, "5", "9", 0⟩ rfl rfl rfl

/-- The pipeline's document index together with its on-disk persisted copy
(`persist_dir`); documents are abstract. -/
structure IndexState where
  docs : List String
  persisted : List String
deriving Repr, DecidableEq

/-- `_process_and_index_documents` (lines 154-157): insert each document
into the shared index, then persist the whole index to disk. -/
def process_and_index_documents (st : IndexState) (documents : List String) :
    IndexState :=
  { docs := st.docs ++ documents, persisted := st.docs ++ documents }

/-- `load_local_directory` (lines 159-166), parameterized by the
filesystem: `Path.is_dir` and the directory reader.  Returns the resulting
state and the call's outcome — `ValueError` when the path is not a
directory. -/
def load_local_directory (pathIsDir : String → Bool)
    (readDirectory : String → List String) (st : IndexState)
    (directory : String) : IndexState × Except String Unit :=
  if !(pathIsDir directory) then
    (st, .error (directory ++ " is not a valid directory"))
  else
    (process_and_index_documents st (readDirectory directory), .ok ())

/-- C10: on a path that is not a directory, `load_local_directory` raises
the validation error and performs no ingestion and no persistence: the
index and the persisted state are returned unchanged. -/
theorem load_local_directory_invalid_path (pathIsDir : String → Bool)
    (readDirectory : String → List String) (st : IndexState)
    (directory : String) (h : pathIsDir directory = false) :
    load_local_directory pathIsDir readDirectory st directory =
      (st, .error (directory ++ " is not a valid directory")) := by
  simp [load_local_directory, h]

/-- C10 witness: a filesystem on which no path is a directory. -/
theorem load_local_directory_invalid_path_witness :
    load_local_directory (fun _ => false) (fun _ => ["d1"])
        ⟨["d0"], ["d0"]⟩ "bad" =
      (⟨["d0"], ["d0"]⟩, .error "bad is not a valid directory") :=
  load_local_directory_invalid_path (fun _ => false) (fun _ => ["d1"])
    ⟨["d0"], ["d0"]⟩ "bad" rfl

end Discollama
